import Mathlib

/-!
# Verification of the MultiAgent task-router job orchestrator

Shallow embedding of the orchestrator core of this repository:

* `src/task-router/src/services/job-state.ts` — `JobStateManager`
  (`createJob`, `startJob`, `completeTask`, `cleanup`, `getStats`,
  `getAllJobs`);
* `src/task-router/src/index.ts` — the completion-event consumer callback
  installed by `TaskRouterApp.startEventConsumer`, the `TaskRouter`
  stage-dispatch switch (`handleTaskCompletion`, `completeJob`) and the
  HTTP routes of `APIServer` (`POST /api/router/jobs`,
  `GET /api/router/tasks`);
* `src/task-router/src/services/messaging.ts` — the per-message
  delete/keep decision of `SQSMessaging.consumeEvents`;
* the web front-end job-submission route (Next.js `app/api/jobs/route.ts`)
  with its per-IP rate limiter (`checkRateLimit`, `RATE_LIMIT_WINDOW`).

JavaScript `Map<string, V>` objects are embedded as insertion-ordered
association lists with unique keys (`mapGet`/`mapSet`/`mapDelete`);
`Date` values as milliseconds-since-epoch integers (`Int`); dispatched
SQS messages as an explicit output list (`OutMsg`); the blob store as the
list of keys it currently holds (a `storage.get` succeeds exactly when
the key is present).
-/

namespace TaskRouter

/-- Job record status (`types.ts`, `JobStatus.status`):
`queued | in_progress | completed | failed`. -/
inductive JStatus where
  | queued
  | in_progress
  | completed
  | failed
deriving DecidableEq

/-- Completion-event status (`types.ts`, `CompletionEvent.status`):
`success | failure | error | in_progress`. -/
inductive EvStatus where
  | success
  | failure
  | error
  | in_progress
deriving DecidableEq

/-- One job record of the Job State Index (`types.ts`, interface
`JobStatus`).  `startedAt`/`completedAt` are epoch milliseconds. -/
structure JobStatus where
  jobId : String
  status : JStatus
  completedTasks : List String
  startedAt : Int
  completedAt : Option Int
  error : Option String
deriving DecidableEq

/-- A completion event as consumed from the events queue (`types.ts`,
interface `CompletionEvent`); fields the orchestrator never reads
(`result`, `result_key`, `timestamp`) are omitted. -/
structure CompletionEvent where
  job_id : String
  task_type : String
  status : EvStatus
  error : Option String
deriving DecidableEq

/-- Lookup in a JavaScript `Map` embedded as an association list. -/
def mapGet {α : Type} (l : List (String × α)) (k : String) : Option α :=
  match l with
  | [] => none
  | (k', v) :: t => if k' = k then some v else mapGet t k

/-- `Map.set`: replaces the value at an existing key in place, appends a
fresh key at the end (JavaScript `Map` insertion order). -/
def mapSet {α : Type} (l : List (String × α)) (k : String) (v : α) :
    List (String × α) :=
  match l with
  | [] => [(k, v)]
  | (k', v') :: t => if k' = k then (k, v) :: t else (k', v') :: mapSet t k v

/-- `Map.delete`: removes the entry with the given key. -/
def mapDelete {α : Type} (l : List (String × α)) (k : String) :
    List (String × α) :=
  l.filter (fun p => !(p.1 == k))

/-- The in-memory Job State Index (`job-state.ts`, `JobStateManager`,
field `jobs: Map<string, JobStatus>`). -/
structure JobStateManager where
  jobs : List (String × JobStatus)
deriving DecidableEq

/-- The list `requiredTasks` of `JobStateManager.completeTask`
(`job-state.ts` line 60), which is also the canonical stage order of the
pipeline. -/
def requiredTasks : List String :=
  ["research", "product_manager", "drawer", "designer", "coder"]

/-- `l` is an initial segment of the canonical stage order (the
"completed_stages is a prefix of the canonical order" property of the
specification, stated via `List.take`). -/
def isInCanonicalOrder (l : List String) : Bool :=
  requiredTasks.take l.length == l

/-- `JobStateManager.createJob` (`job-state.ts` lines 9-20): builds a
fresh `queued` record and unconditionally `Map.set`s it, overwriting any
record already stored under the same id. -/
def createJob (m : JobStateManager) (jobId : String) (now : Int) :
    JobStateManager :=
  { jobs := mapSet m.jobs jobId
      { jobId := jobId, status := JStatus.queued, completedTasks := [],
        startedAt := now, completedAt := none, error := none } }

/-- `JobStateManager.startJob` (`job-state.ts` lines 22-30): sets the
status to `in_progress`; `none` models the `Job not found` throw. -/
def startJob (m : JobStateManager) (jobId : String) :
    Option JobStateManager :=
  match mapGet m.jobs jobId with
  | none => none
  | some job =>
      some { jobs := mapSet m.jobs jobId { job with status := JStatus.in_progress } }

/-- The `requiredTasks.every(task => job.completedTasks.includes(task))`
check of `completeTask` (`job-state.ts` lines 60-63). -/
def allTasksComplete (completedTasks : List String) : Bool :=
  requiredTasks.all (fun t => completedTasks.contains t)

/-- `JobStateManager.completeTask` (`job-state.ts` lines 32-73); the
returned `Bool` is the `isJobComplete` flag.  Note the source checks
neither that the job is non-terminal nor that the completed stage is the
next expected one. -/
def completeTask (m : JobStateManager) (e : CompletionEvent) (now : Int) :
    JobStateManager × Bool :=
  match mapGet m.jobs e.job_id with
  | none => (m, false)
  | some job =>
      if e.status = EvStatus.in_progress then (m, false)
      else if e.status = EvStatus.failure ∨ e.status = EvStatus.error then
        ({ jobs := mapSet m.jobs e.job_id
             { job with status := JStatus.failed, error := e.error,
                        completedAt := some now } }, true)
      else
        let job1 :=
          if job.completedTasks.contains e.task_type then job
          else { job with completedTasks := job.completedTasks ++ [e.task_type] }
        if allTasksComplete job1.completedTasks then
          ({ jobs := mapSet m.jobs e.job_id
               { job1 with status := JStatus.completed, completedAt := some now } },
           true)
        else
          ({ jobs := mapSet m.jobs e.job_id job1 }, false)

/-- `JobStateManager.getJob` (`job-state.ts` lines 75-77). -/
def getJob (m : JobStateManager) (jobId : String) : Option JobStatus :=
  mapGet m.jobs jobId

/-- Aggregate counts returned by `JobStateManager.getStats`. -/
structure JobStats where
  total : Nat
  queued : Nat
  in_progress : Nat
  completed : Nat
  failed : Nat
deriving DecidableEq

/-- Number of stored jobs whose status is `s`. -/
def countWithStatus (m : JobStateManager) (s : JStatus) : Nat :=
  (m.jobs.filter (fun p => p.2.status == s)).length

/-- `JobStateManager.getStats` (`job-state.ts` lines 129-143). -/
def getStats (m : JobStateManager) : JobStats :=
  { total := m.jobs.length,
    queued := countWithStatus m JStatus.queued,
    in_progress := countWithStatus m JStatus.in_progress,
    completed := countWithStatus m JStatus.completed,
    failed := countWithStatus m JStatus.failed }

/-- Default `maxAge` of `JobStateManager.cleanup`: 24 hours in ms. -/
def DEFAULT_CLEANUP_MAX_AGE : Int := 24 * 60 * 60 * 1000

/-- Eviction condition of `cleanup` (`job-state.ts` line 114): the age is
measured from `startedAt`, and the job must be terminal. -/
def shouldReap (now maxAge : Int) (job : JobStatus) : Bool :=
  decide (now - job.startedAt > maxAge) &&
    (job.status == JStatus.completed || job.status == JStatus.failed)

/-- `JobStateManager.cleanup` (`job-state.ts` lines 108-127): collect the
ids to delete, then delete them one by one. -/
def cleanup (m : JobStateManager) (now maxAge : Int) : JobStateManager :=
  let jobsToDelete := (m.jobs.filter (fun p => shouldReap now maxAge p.2)).map Prod.fst
  { jobs := jobsToDelete.foldl mapDelete m.jobs }

/-- A message sent by the orchestrator: either a stage task message on
that stage's queue (`SQSMessaging.sendTaskMessage`) or the
`job_completed` announcement on the events queue
(`SQSMessaging.publishDone`). -/
inductive OutMsg where
  | taskMsg (jobId : String) (task : String)
  | jobCompleted (jobId : String)
deriving DecidableEq

/-- `TaskRouter.handleTaskCompletion` (graph module of the task-router):
switch on the completed `taskType`; each `execute*Task` first reads the
upstream result artifact from the blob store (throwing if absent, the
`Except.error` case) and then sends the next stage's task message; the
`coder` case is `completeJob`, which publishes the `job_completed`
event.  `storeKeys` is the set of keys present in the blob store. -/
def handleTaskCompletion (storeKeys : List String) (jobId taskType : String) :
    Except String (List OutMsg) :=
  if taskType = "research" then
    if storeKeys.contains (jobId ++ "/research-result.json") then
      Except.ok [OutMsg.taskMsg jobId "product_manager"]
    else Except.error "NotFound"
  else if taskType = "product_manager" then
    if storeKeys.contains (jobId ++ "/product-manager-result.json") then
      Except.ok [OutMsg.taskMsg jobId "drawer"]
    else Except.error "NotFound"
  else if taskType = "drawer" then
    if storeKeys.contains (jobId ++ "/drawer-result.json") then
      Except.ok [OutMsg.taskMsg jobId "designer"]
    else Except.error "NotFound"
  else if taskType = "designer" then
    if storeKeys.contains (jobId ++ "/designer-result.json") then
      Except.ok [OutMsg.taskMsg jobId "coder"]
    else Except.error "NotFound"
  else if taskType = "coder" then
    Except.ok [OutMsg.jobCompleted jobId]
  else
    Except.ok []

/-- The completion-event callback installed by
`TaskRouterApp.startEventConsumer` (`index.ts` lines 52-81): skip
`in_progress` events; run `completeTask`; when `isJobComplete` is true
only update metrics; otherwise, for `success` events, call
`handleTaskCompletion`.  The whole body is wrapped in `try { .. } catch`
that swallows every exception, so a failed dispatch leaves the already
updated job state in place and produces no messages. -/
def eventConsumerHandler (storeKeys : List String) (m : JobStateManager)
    (e : CompletionEvent) (now : Int) : JobStateManager × List OutMsg :=
  if e.status = EvStatus.in_progress then (m, [])
  else
    match completeTask m e now with
    | (m1, true) => (m1, [])
    | (m1, false) =>
        if e.status = EvStatus.success then
          match handleTaskCompletion storeKeys e.job_id e.task_type with
          | Except.ok out => (m1, out)
          | Except.error _ => (m1, [])
        else (m1, [])

/-- One message iteration of `SQSMessaging.consumeEvents`
(`messaging.ts` lines 98-112): `none` models a message whose body fails
`JSON.parse` (the exception is caught before the delete, so the message
is NOT deleted); for a parsed event the handler above never throws, so
the message is always deleted.  The final `Bool` is "message deleted". -/
def consumeEventsStep (storeKeys : List String) (m : JobStateManager)
    (msg : Option CompletionEvent) (now : Int) :
    JobStateManager × List OutMsg × Bool :=
  match msg with
  | none => (m, [], false)
  | some e =>
      let r := eventConsumerHandler storeKeys m e now
      (r.1, r.2, true)

/-- Deliver a list of completion events in order, collecting all sent
messages. -/
def runEvents (storeKeys : List String) (m : JobStateManager)
    (evs : List CompletionEvent) (now : Int) : JobStateManager × List OutMsg :=
  match evs with
  | [] => (m, [])
  | e :: rest =>
      let r := eventConsumerHandler storeKeys m e now
      let r2 := runEvents storeKeys r.1 rest now
      (r2.1, r.2 ++ r2.2)

/-- Request body of a job submission (`types.ts`, `JobSpec`); `none`
models an absent field, `some ""` an empty string (both falsy). -/
structure JobSpecReq where
  product : Option String
  audience : Option String
  tone : Option String
  job_id : Option String
deriving DecidableEq

/-- JavaScript truthiness of an optional string field. -/
def truthyStr : Option String → Bool
  | none => false
  | some s => !(s == "")

/-- The `POST /api/router/jobs` route of `APIServer.setupRoutes`:
validate `product`/`audience` (400 on failure), take the client-supplied
`job_id` or the freshly generated uuid `genId`, then `createJob` +
`startJob` and answer 201.  There is no duplicate check and no rate
limiting in this route; the catch-all 500 is only reachable through the
`startJob` throw.  Returns the new index and the HTTP status code. -/
def postJob (m : JobStateManager) (req : JobSpecReq) (genId : String)
    (now : Int) : JobStateManager × Nat :=
  if !(truthyStr req.product && truthyStr req.audience) then (m, 400)
  else
    let jobId :=
      match req.job_id with
      | some s => if s == "" then genId else s
      | none => genId
    let m1 := createJob m jobId now
    match startJob m1 jobId with
    | some m2 => (m2, 201)
    | none => (m1, 500)

/-- `Math.round (a / b)` for natural `a`, positive `b` (round half away
from zero, which for non-negative values is round half up). -/
def mathRoundDiv (a b : Nat) : Nat := (2 * a + b) / (2 * b)

/-- `calculateJobProgress` of the `GET /api/router/tasks` route:
`Math.round((job.completedTasks.length / totalTasks) * 100)` with
`totalTasks = 3` (the comment in the source reads "research, writer,
coder"). -/
def calculateJobProgress (job : JobStatus) : Nat :=
  mathRoundDiv (job.completedTasks.length * 100) 3

/-- One element of the `GET /api/router/tasks` response. -/
structure TaskView where
  task_id : String
  job_id : String
  status : JStatus
  created_at : Int
  progress : Nat
deriving DecidableEq

/-- The `GET /api/router/tasks` route: project every stored job to the
task shape the web front-end expects. -/
def tasksEndpoint (m : JobStateManager) : List TaskView :=
  m.jobs.map (fun p =>
    { task_id := p.2.jobId, job_id := p.2.jobId, status := p.2.status,
      created_at := p.2.startedAt, progress := calculateJobProgress p.2 })

/-- `RATE_LIMIT_WINDOW` of the web front-end jobs route: one minute. -/
def RATE_LIMIT_WINDOW : Int := 60 * 1000

/-- `checkRateLimit` of the web front-end jobs route: allow when the IP
has no recorded request or the last allowed request is at least a window
old, recording `now`; otherwise deny and leave the store unchanged. -/
def checkRateLimit (store : List (String × Int)) (ip : String) (now : Int) :
    Bool × List (String × Int) :=
  match mapGet store ip with
  | none => (true, mapSet store ip now)
  | some lastRequest =>
      if now - lastRequest ≥ RATE_LIMIT_WINDOW then (true, mapSet store ip now)
      else (false, store)

/-- HTTP response of the web front-end `POST /api/jobs` route (status
code and the `Retry-After` header when present). -/
structure WebResponse where
  status : Nat
  retryAfterHeader : Option String
deriving DecidableEq

/-- Side effects of the web front-end `POST /api/jobs` route: storing the
job spec in the blob store and the HTTP call into the task-router (the
only path by which this route can touch the Job State Index). -/
inductive WebAction where
  | storeSpecS3 (key : String)
  | callTaskRouter (jobId : String)
deriving DecidableEq

/-- The `POST` handler of the web front-end jobs route
(`app/api/jobs/route.ts`): rate-limit check first (429 with
`Retry-After: 60` and no further work on denial), then body parse
(`none` = unparseable, 400), then `product`/`audience` validation (400),
then store the spec under `{id}/research.json` and call the task-router,
answering 201.  Returns (new rate-limit store, response, actions). -/
def webPostJobs (store : List (String × Int)) (ip : String) (now : Int)
    (body : Option JobSpecReq) (genId : String) :
    List (String × Int) × WebResponse × List WebAction :=
  match checkRateLimit store ip now with
  | (false, store') =>
      (store', { status := 429, retryAfterHeader := some "60" }, [])
  | (true, store') =>
      match body with
      | none => (store', { status := 400, retryAfterHeader := none }, [])
      | some spec =>
          if !(truthyStr spec.product && truthyStr spec.audience) then
            (store', { status := 400, retryAfterHeader := none }, [])
          else
            (store', { status := 201, retryAfterHeader := none },
             [WebAction.storeSpecS3 (genId ++ "/research.json"),
              WebAction.callTaskRouter genId])

/-! ## Association-list (JavaScript `Map`) lemmas -/

theorem mapGet_set_self {α : Type} (l : List (String × α)) (k : String) (v : α) :
    mapGet (mapSet l k v) k = some v := by
  induction l with
  | nil => simp [mapSet, mapGet]
  | cons p t ih =>
      obtain ⟨k', v'⟩ := p
      by_cases h : k' = k
      · simp [mapSet, mapGet, h]
      · simp [mapSet, mapGet, h, ih]

theorem mapGet_set_ne {α : Type} (l : List (String × α)) (k k' : String) (v : α)
    (h : k' ≠ k) : mapGet (mapSet l k v) k' = mapGet l k' := by
  induction l with
  | nil => simp [mapSet, mapGet, Ne.symm h]
  | cons p t ih =>
      obtain ⟨a, b⟩ := p
      by_cases hak : a = k
      · subst hak
        simp [mapSet, mapGet, Ne.symm h]
      · by_cases hak' : a = k' <;> simp [mapSet, mapGet, hak, hak', h, ih]

theorem mapSet_self_of_get {α : Type} (l : List (String × α)) (k : String) (v : α)
    (h : mapGet l k = some v) : mapSet l k v = l := by
  induction l with
  | nil => simp [mapGet] at h
  | cons p t ih =>
      obtain ⟨a, b⟩ := p
      by_cases hak : a = k
      · subst hak
        simp [mapGet] at h
        simp [mapSet, h]
      · simp [mapGet, hak] at h
        simp [mapSet, hak, ih h]

theorem mapGet_delete {α : Type} (l : List (String × α)) (a k : String) :
    mapGet (mapDelete l a) k = if k = a then none else mapGet l k := by
  induction l with
  | nil => simp [mapDelete, mapGet]
  | cons p t ih =>
      obtain ⟨x, y⟩ := p
      simp only [mapDelete, List.filter_cons] at ih ⊢
      by_cases hxa : x = a
      · subst hxa
        by_cases hk : k = x
        · subst hk
          simpa using ih
        · simp [mapGet, hk, Ne.symm hk, ih]
      · by_cases hk : k = a <;> by_cases hxk : x = k <;>
          simp_all [mapGet, ih]

theorem mapGet_foldl_delete {α : Type} (ks : List String)
    (l : List (String × α)) (k : String) :
    mapGet (ks.foldl mapDelete l) k = if k ∈ ks then none else mapGet l k := by
  induction ks generalizing l with
  | nil => simp
  | cons a ks ih =>
      simp only [List.foldl_cons]
      rw [ih, mapGet_delete]
      by_cases hk : k ∈ ks
      · simp [hk]
      · by_cases hka : k = a <;> simp [hk, hka]

theorem mem_of_mapGet {α : Type} (l : List (String × α)) (k : String) (v : α)
    (h : mapGet l k = some v) : (k, v) ∈ l := by
  induction l with
  | nil => simp [mapGet] at h
  | cons p t ih =>
      obtain ⟨a, b⟩ := p
      by_cases hak : a = k
      · subst hak
        simp [mapGet] at h
        simp [h]
      · simp [mapGet, hak] at h
        exact List.mem_cons_of_mem _ (ih h)

theorem mapGet_of_mem_nodup {α : Type} (l : List (String × α)) (k : String)
    (v : α) (hnd : (l.map Prod.fst).Nodup) (h : (k, v) ∈ l) :
    mapGet l k = some v := by
  induction l with
  | nil => simp at h
  | cons p t ih =>
      obtain ⟨a, b⟩ := p
      simp only [List.map_cons, List.nodup_cons] at hnd
      rcases List.mem_cons.mp h with h1 | h1
      · simp only [Prod.mk.injEq] at h1
        obtain ⟨rfl, rfl⟩ := h1
        simp [mapGet]
      · by_cases hak : a = k
        · exfalso
          apply hnd.1
          subst hak
          exact List.mem_map.mpr ⟨(a, v), h1, rfl⟩
        · simp [mapGet, hak, ih hnd.2 h1]

/-! ## Branch characterizations of `completeTask` and the event consumer -/

theorem completeTask_unknown (m : JobStateManager) (e : CompletionEvent)
    (now : Int) (h : mapGet m.jobs e.job_id = none) :
    completeTask m e now = (m, false) := by
  unfold completeTask
  simp only [h]

theorem completeTask_skip_in_progress (m : JobStateManager) (e : CompletionEvent)
    (now : Int) (job : JobStatus) (h : mapGet m.jobs e.job_id = some job)
    (hip : e.status = EvStatus.in_progress) :
    completeTask m e now = (m, false) := by
  unfold completeTask
  simp only [h, if_pos hip]

theorem completeTask_failure (m : JobStateManager) (e : CompletionEvent)
    (now : Int) (job : JobStatus) (h : mapGet m.jobs e.job_id = some job)
    (hfe : e.status = EvStatus.failure ∨ e.status = EvStatus.error) :
    completeTask m e now =
      ({ jobs := mapSet m.jobs e.job_id
           { job with status := JStatus.failed, error := e.error,
                      completedAt := some now } }, true) := by
  have hip : ¬ e.status = EvStatus.in_progress := by
    rcases hfe with h1 | h1 <;> rw [h1] <;> simp
  unfold completeTask
  simp only [h, if_neg hip, if_pos hfe]

theorem completeTask_success_mem (m : JobStateManager) (e : CompletionEvent)
    (now : Int) (job : JobStatus) (h : mapGet m.jobs e.job_id = some job)
    (hs : e.status = EvStatus.success)
    (hct : job.completedTasks.contains e.task_type = true) :
    completeTask m e now =
      (if allTasksComplete job.completedTasks then
         ({ jobs := mapSet m.jobs e.job_id
              { job with status := JStatus.completed, completedAt := some now } },
          true)
       else ({ jobs := mapSet m.jobs e.job_id job }, false)) := by
  have hip : ¬ e.status = EvStatus.in_progress := by rw [hs]; simp
  have hfe : ¬ (e.status = EvStatus.failure ∨ e.status = EvStatus.error) := by
    rw [hs]; simp
  unfold completeTask
  simp only [h, if_neg hip, if_neg hfe, hct, if_true]

theorem completeTask_success_new (m : JobStateManager) (e : CompletionEvent)
    (now : Int) (job : JobStatus) (h : mapGet m.jobs e.job_id = some job)
    (hs : e.status = EvStatus.success)
    (hct : job.completedTasks.contains e.task_type = false) :
    completeTask m e now =
      (if allTasksComplete (job.completedTasks ++ [e.task_type]) then
         ({ jobs := mapSet m.jobs e.job_id
              { job with completedTasks := job.completedTasks ++ [e.task_type],
                         status := JStatus.completed, completedAt := some now } },
          true)
       else
         ({ jobs := mapSet m.jobs e.job_id
              { job with completedTasks := job.completedTasks ++ [e.task_type] } },
          false)) := by
  have hip : ¬ e.status = EvStatus.in_progress := by rw [hs]; simp
  have hfe : ¬ (e.status = EvStatus.failure ∨ e.status = EvStatus.error) := by
    rw [hs]; simp
  unfold completeTask
  simp only [h, if_neg hip, if_neg hfe, hct, Bool.false_eq_true, if_false]

theorem eventConsumerHandler_in_progress (storeKeys : List String)
    (m : JobStateManager) (e : CompletionEvent) (now : Int)
    (hip : e.status = EvStatus.in_progress) :
    eventConsumerHandler storeKeys m e now = (m, []) := by
  unfold eventConsumerHandler
  simp only [if_pos hip]

theorem eventConsumerHandler_terminal (storeKeys : List String)
    (m : JobStateManager) (e : CompletionEvent) (now : Int)
    (m1 : JobStateManager) (hip : ¬ e.status = EvStatus.in_progress)
    (hct : completeTask m e now = (m1, true)) :
    eventConsumerHandler storeKeys m e now = (m1, []) := by
  unfold eventConsumerHandler
  simp only [if_neg hip, hct]

theorem eventConsumerHandler_success_dispatch (storeKeys : List String)
    (m : JobStateManager) (e : CompletionEvent) (now : Int)
    (m1 : JobStateManager) (out : List OutMsg)
    (hs : e.status = EvStatus.success)
    (hct : completeTask m e now = (m1, false))
    (hd : handleTaskCompletion storeKeys e.job_id e.task_type = Except.ok out) :
    eventConsumerHandler storeKeys m e now = (m1, out) := by
  have hip : ¬ e.status = EvStatus.in_progress := by rw [hs]; simp
  unfold eventConsumerHandler
  simp only [if_neg hip, hct, if_pos hs, hd]

theorem eventConsumerHandler_success_dispatch_fails (storeKeys : List String)
    (m : JobStateManager) (e : CompletionEvent) (now : Int)
    (m1 : JobStateManager) (s : String)
    (hs : e.status = EvStatus.success)
    (hct : completeTask m e now = (m1, false))
    (hd : handleTaskCompletion storeKeys e.job_id e.task_type = Except.error s) :
    eventConsumerHandler storeKeys m e now = (m1, []) := by
  have hip : ¬ e.status = EvStatus.in_progress := by rw [hs]; simp
  unfold eventConsumerHandler
  simp only [if_neg hip, hct, if_pos hs, hd]

theorem eventConsumerHandler_fst (storeKeys : List String) (m : JobStateManager)
    (e : CompletionEvent) (now : Int) :
    (eventConsumerHandler storeKeys m e now).1 = (completeTask m e now).1 := by
  unfold eventConsumerHandler
  by_cases hip : e.status = EvStatus.in_progress
  · rw [if_pos hip]
    unfold completeTask
    cases hg : mapGet m.jobs e.job_id
    · rfl
    · simp [hip]
  · rw [if_neg hip]
    rcases hct : completeTask m e now with ⟨m1, b⟩
    cases b
    · by_cases hs : e.status = EvStatus.success
      · simp only [hct, if_pos hs]
        cases handleTaskCompletion storeKeys e.job_id e.task_type <;> rfl
      · simp only [hct, if_neg hs]
    · simp only [hct]

theorem completeTask_get_other (m : JobStateManager) (e : CompletionEvent)
    (now : Int) (jobId : String) (hj : jobId ≠ e.job_id) :
    mapGet (completeTask m e now).1.jobs jobId = mapGet m.jobs jobId := by
  cases hg : mapGet m.jobs e.job_id with
  | none => rw [completeTask_unknown m e now hg]
  | some job =>
      by_cases hip : e.status = EvStatus.in_progress
      · rw [completeTask_skip_in_progress m e now job hg hip]
      · by_cases hfe : e.status = EvStatus.failure ∨ e.status = EvStatus.error
        · rw [completeTask_failure m e now job hg hfe]
          exact mapGet_set_ne _ _ _ _ hj
        · have hs : e.status = EvStatus.success := by
            cases hst : e.status <;> simp_all
          by_cases hctn : job.completedTasks.contains e.task_type
          · rw [completeTask_success_mem m e now job hg hs hctn]
            by_cases hac : allTasksComplete job.completedTasks <;>
              simp [hac, mapGet_set_ne _ _ _ _ hj]
          · rw [completeTask_success_new m e now job hg hs (by simpa using hctn)]
            by_cases hac : allTasksComplete (job.completedTasks ++ [e.task_type]) <;>
              simp [hac, mapGet_set_ne _ _ _ _ hj]

/-! ## C1 — completed stages: prefix invariant and out-of-order events -/

/-- C1 (amended): processing any completion event either leaves a job's
`completedTasks` unchanged or appends the event's `task_type` at the end,
and appends only if that stage was not already recorded.  So
`completed_stages` is an append-only, duplicate-free list of the
successfully completed stages in arrival order — but, contrary to the
claim, it is not forced to be a prefix of the canonical stage order, and
an out-of-order success is appended and dispatched rather than ignored
(see `c1_out_of_order_not_ignored`). -/
theorem c1_completed_stages_append_only (storeKeys : List String)
    (m : JobStateManager) (e : CompletionEvent) (now : Int) (jobId : String)
    (job job' : JobStatus)
    (h : mapGet m.jobs jobId = some job)
    (h' : mapGet (eventConsumerHandler storeKeys m e now).1.jobs jobId = some job') :
    job'.completedTasks = job.completedTasks ∨
      (job'.completedTasks = job.completedTasks ++ [e.task_type] ∧
        e.task_type ∉ job.completedTasks) := by
  rw [eventConsumerHandler_fst] at h'
  by_cases hj : jobId = e.job_id
  · subst hj
    by_cases hip : e.status = EvStatus.in_progress
    · simp only [completeTask_skip_in_progress m e now job h hip] at h'
      rw [h] at h'
      injection h' with hh
      left
      rw [hh]
    · by_cases hfe : e.status = EvStatus.failure ∨ e.status = EvStatus.error
      · simp only [completeTask_failure m e now job h hfe, mapGet_set_self,
          Option.some.injEq] at h'
        subst h'
        left
        rfl
      · have hs : e.status = EvStatus.success := by
          cases hst : e.status <;> simp_all
        by_cases hctn : job.completedTasks.contains e.task_type
        · by_cases hac : allTasksComplete job.completedTasks <;>
            · simp only [completeTask_success_mem m e now job h hs hctn] at h'
              simp [hac, mapGet_set_self] at h'
              subst h'
              left
              rfl
        · have hmem : e.task_type ∉ job.completedTasks := by simpa using hctn
          by_cases hac : allTasksComplete (job.completedTasks ++ [e.task_type]) <;>
            · simp only [completeTask_success_new m e now job h hs
                (by simpa using hctn)] at h'
              simp [hac, mapGet_set_self] at h'
              subst h'
              right
              exact ⟨rfl, hmem⟩
  · rw [completeTask_get_other m e now jobId hj, h] at h'
    injection h' with hh
    left
    rw [hh]

/-- Witness for `c1_completed_stages_append_only`: a fresh job receives a
`research` success; its `completedTasks` grows from `[]` to
`["research"]`. -/
theorem c1_completed_stages_append_only_witness :
    mapGet ({ jobs := [("j",
        { jobId := "j", status := JStatus.in_progress, completedTasks := [],
          startedAt := 0, completedAt := none, error := none })] } :
        JobStateManager).jobs "j" =
      some { jobId := "j", status := JStatus.in_progress, completedTasks := [],
             startedAt := 0, completedAt := none, error := none } ∧
    mapGet (eventConsumerHandler []
        { jobs := [("j",
            { jobId := "j", status := JStatus.in_progress, completedTasks := [],
              startedAt := 0, completedAt := none, error := none })] }
        { job_id := "j", task_type := "research", status := EvStatus.success,
          error := none } 0).1.jobs "j" =
      some { jobId := "j", status := JStatus.in_progress,
             completedTasks := ["research"], startedAt := 0,
             completedAt := none, error := none } ∧
    (({ jobId := "j", status := JStatus.in_progress,
        completedTasks := ["research"], startedAt := 0, completedAt := none,
        error := none } : JobStatus).completedTasks =
        ([] : List String) ∨
      (({ jobId := "j", status := JStatus.in_progress,
          completedTasks := ["research"], startedAt := 0, completedAt := none,
          error := none } : JobStatus).completedTasks = [] ++ ["research"] ∧
        "research" ∉ ([] : List String))) :=
  ⟨by decide, by decide,
    c1_completed_stages_append_only []
      { jobs := [("j",
          { jobId := "j", status := JStatus.in_progress, completedTasks := [],
            startedAt := 0, completedAt := none, error := none })] }
      { job_id := "j", task_type := "research", status := EvStatus.success,
        error := none } 0 "j"
      { jobId := "j", status := JStatus.in_progress, completedTasks := [],
        startedAt := 0, completedAt := none, error := none }
      { jobId := "j", status := JStatus.in_progress,
        completedTasks := ["research"], startedAt := 0, completedAt := none,
        error := none }
      (by decide) (by decide)⟩

/-- C1 counterexample: a fresh job (nothing completed) receives a
`designer` success.  The event is not ignored: `"designer"` is appended —
`completedTasks = ["designer"]` is not a prefix of the canonical order —
and the `coder` task is dispatched. -/
theorem c1_out_of_order_not_ignored :
    eventConsumerHandler ["j/designer-result.json"]
        { jobs := [("j",
            { jobId := "j", status := JStatus.in_progress, completedTasks := [],
              startedAt := 0, completedAt := none, error := none })] }
        { job_id := "j", task_type := "designer", status := EvStatus.success,
          error := none } 0 =
      ({ jobs := [("j",
           { jobId := "j", status := JStatus.in_progress,
             completedTasks := ["designer"], startedAt := 0,
             completedAt := none, error := none })] },
       [OutMsg.taskMsg "j" "coder"]) ∧
    isInCanonicalOrder ["designer"] = false :=
  ⟨by decide, by decide⟩

/-! ## C2 — terminal jobs and later completion events -/

/-- C2 (amended): a terminal `failed` job is NOT immutable.  A later
success event for a stage it has not recorded appends that stage to
`completedTasks` (the status stays `failed` as long as the five stages
are not all covered), contradicting the claim that no later event changes
the record. -/
theorem c2_terminal_job_still_mutates (storeKeys : List String)
    (m : JobStateManager) (e : CompletionEvent) (now : Int) (job : JobStatus)
    (h : mapGet m.jobs e.job_id = some job)
    (_hfail : job.status = JStatus.failed)
    (hs : e.status = EvStatus.success)
    (hctn : job.completedTasks.contains e.task_type = false)
    (hnall : allTasksComplete (job.completedTasks ++ [e.task_type]) = false) :
    mapGet (eventConsumerHandler storeKeys m e now).1.jobs e.job_id =
      some { job with completedTasks := job.completedTasks ++ [e.task_type] } := by
  rw [eventConsumerHandler_fst, completeTask_success_new m e now job h hs hctn]
  simp [hnall, mapGet_set_self]

/-- Witness for `c2_terminal_job_still_mutates`: a failed job receives a
`research` success and its record changes. -/
theorem c2_terminal_job_still_mutates_witness :
    mapGet ({ jobs := [("j",
        { jobId := "j", status := JStatus.failed, completedTasks := [],
          startedAt := 0, completedAt := some 5, error := some "boom" })] } :
        JobStateManager).jobs "j" =
      some { jobId := "j", status := JStatus.failed, completedTasks := [],
             startedAt := 0, completedAt := some 5, error := some "boom" } ∧
    (({ jobId := "j", status := JStatus.failed, completedTasks := [],
        startedAt := 0, completedAt := some 5,
        error := some "boom" } : JobStatus).status = JStatus.failed) ∧
    mapGet (eventConsumerHandler []
        { jobs := [("j",
            { jobId := "j", status := JStatus.failed, completedTasks := [],
              startedAt := 0, completedAt := some 5, error := some "boom" })] }
        { job_id := "j", task_type := "research", status := EvStatus.success,
          error := none } 7).1.jobs "j" =
      some { jobId := "j", status := JStatus.failed,
             completedTasks := [] ++ ["research"], startedAt := 0,
             completedAt := some 5, error := some "boom" } :=
  ⟨by decide, by decide,
    c2_terminal_job_still_mutates []
      { jobs := [("j",
          { jobId := "j", status := JStatus.failed, completedTasks := [],
            startedAt := 0, completedAt := some 5, error := some "boom" })] }
      { job_id := "j", task_type := "research", status := EvStatus.success,
        error := none } 7
      { jobId := "j", status := JStatus.failed, completedTasks := [],
        startedAt := 0, completedAt := some 5, error := some "boom" }
      (by decide) (by decide) (by decide) (by decide) (by decide)⟩

/-- C2 counterexample: a job already terminal (`status = failed`,
`completed_at` set) receives a later `research` success; its record
changes — `completedTasks` becomes `["research"]`. -/
theorem c2_terminal_not_immutable :
    (eventConsumerHandler []
        { jobs := [("j",
            { jobId := "j", status := JStatus.failed, completedTasks := [],
              startedAt := 0, completedAt := some 5, error := some "boom" })] }
        { job_id := "j", task_type := "research", status := EvStatus.success,
          error := none } 7).1 ≠
      { jobs := [("j",
          { jobId := "j", status := JStatus.failed, completedTasks := [],
            startedAt := 0, completedAt := some 5, error := some "boom" })] } ∧
    (getJob (eventConsumerHandler []
        { jobs := [("j",
            { jobId := "j", status := JStatus.failed, completedTasks := [],
              startedAt := 0, completedAt := some 5, error := some "boom" })] }
        { job_id := "j", task_type := "research", status := EvStatus.success,
          error := none } 7).1 "j").map JobStatus.completedTasks =
      some ["research"] :=
  ⟨by decide, by decide⟩

/-! ## C4 — duplicate completion events -/

theorem completeTask_success_idem (m : JobStateManager) (e : CompletionEvent)
    (now now' : Int) (hs : e.status = EvStatus.success)
    (hnc : (completeTask m e now).2 = false) :
    completeTask (completeTask m e now).1 e now' =
      ((completeTask m e now).1, false) := by
  cases hg : mapGet m.jobs e.job_id with
  | none =>
      rw [completeTask_unknown m e now hg]
      exact completeTask_unknown m e now' hg
  | some job =>
      by_cases hctn : job.completedTasks.contains e.task_type
      · rw [completeTask_success_mem m e now job hg hs hctn] at hnc ⊢
        by_cases hac : allTasksComplete job.completedTasks
        · simp [hac] at hnc
        · simp only [hac, Bool.false_eq_true, if_false]
          rw [mapSet_self_of_get _ _ _ hg]
          show completeTask m e now' = (m, false)
          rw [completeTask_success_mem m e now' job hg hs hctn]
          simp [hac, mapSet_self_of_get _ _ _ hg]
      · have hctn' : job.completedTasks.contains e.task_type = false := by
          simpa using hctn
        rw [completeTask_success_new m e now job hg hs hctn'] at hnc ⊢
        by_cases hac : allTasksComplete (job.completedTasks ++ [e.task_type])
        · simp [hac] at hnc
        · simp only [hac, Bool.false_eq_true, if_false]
          have hg1 : mapGet (mapSet m.jobs e.job_id
              { job with completedTasks := job.completedTasks ++ [e.task_type] })
                e.job_id =
              some { job with
                     completedTasks := job.completedTasks ++ [e.task_type] } :=
            mapGet_set_self _ _ _
          have hctn1 : ({ job with
              completedTasks := job.completedTasks ++ [e.task_type] } :
              JobStatus).completedTasks.contains e.task_type = true := by
            simp
          rw [completeTask_success_mem _ e now' _ hg1 hs hctn1]
          simp only [hac, Bool.false_eq_true, if_false]
          rw [mapSet_self_of_get _ _ _ hg1]

/-- C4 (amended): delivering the same non-completing success event a
second time leaves the job state exactly as after the first delivery, but
the consumer re-dispatches: the second processing emits the same
next-stage message again, so N deliveries enqueue N copies rather than
the single message the claim asserts (see
`c4_duplicate_event_dispatches_twice`). -/
theorem c4_duplicate_success_idempotent_state_not_dispatch
    (storeKeys : List String) (m : JobStateManager) (e : CompletionEvent)
    (now now' : Int) (hs : e.status = EvStatus.success)
    (hnc : (completeTask m e now).2 = false) :
    (eventConsumerHandler storeKeys
        (eventConsumerHandler storeKeys m e now).1 e now').1 =
      (eventConsumerHandler storeKeys m e now).1 ∧
    (eventConsumerHandler storeKeys
        (eventConsumerHandler storeKeys m e now).1 e now').2 =
      (eventConsumerHandler storeKeys m e now).2 := by
  have hcore := completeTask_success_idem m e now now' hs hnc
  rcases hct1 : completeTask m e now with ⟨m1, b1⟩
  rw [hct1] at hnc
  simp only at hnc
  subst hnc
  rw [hct1] at hcore
  simp only at hcore
  cases hd : handleTaskCompletion storeKeys e.job_id e.task_type with
  | ok out =>
      simp only [eventConsumerHandler_success_dispatch storeKeys m e now m1 out
        hs hct1 hd,
        eventConsumerHandler_success_dispatch storeKeys m1 e now' m1 out
        hs hcore hd]
      exact ⟨trivial, trivial⟩
  | error s =>
      simp only [eventConsumerHandler_success_dispatch_fails storeKeys m e now
        m1 s hs hct1 hd,
        eventConsumerHandler_success_dispatch_fails storeKeys m1 e now' m1 s
        hs hcore hd]
      exact ⟨trivial, trivial⟩

/-- Witness for `c4_duplicate_success_idempotent_state_not_dispatch`: a
fresh job with a duplicated `research` success. -/
theorem c4_duplicate_success_idempotent_witness :
    EvStatus.success = EvStatus.success ∧
    (completeTask
        { jobs := [("j",
            { jobId := "j", status := JStatus.in_progress, completedTasks := [],
              startedAt := 0, completedAt := none, error := none })] }
        { job_id := "j", task_type := "research", status := EvStatus.success,
          error := none } 0).2 = false ∧
    ((eventConsumerHandler ["j/research-result.json"]
        (eventConsumerHandler ["j/research-result.json"]
          { jobs := [("j",
              { jobId := "j", status := JStatus.in_progress,
                completedTasks := [], startedAt := 0, completedAt := none,
                error := none })] }
          { job_id := "j", task_type := "research",
            status := EvStatus.success, error := none } 0).1
        { job_id := "j", task_type := "research", status := EvStatus.success,
          error := none } 3).1 =
      (eventConsumerHandler ["j/research-result.json"]
        { jobs := [("j",
            { jobId := "j", status := JStatus.in_progress, completedTasks := [],
              startedAt := 0, completedAt := none, error := none })] }
        { job_id := "j", task_type := "research", status := EvStatus.success,
          error := none } 0).1 ∧
    (eventConsumerHandler ["j/research-result.json"]
        (eventConsumerHandler ["j/research-result.json"]
          { jobs := [("j",
              { jobId := "j", status := JStatus.in_progress,
                completedTasks := [], startedAt := 0, completedAt := none,
                error := none })] }
          { job_id := "j", task_type := "research",
            status := EvStatus.success, error := none } 0).1
        { job_id := "j", task_type := "research", status := EvStatus.success,
          error := none } 3).2 =
      (eventConsumerHandler ["j/research-result.json"]
        { jobs := [("j",
            { jobId := "j", status := JStatus.in_progress, completedTasks := [],
              startedAt := 0, completedAt := none, error := none })] }
        { job_id := "j", task_type := "research", status := EvStatus.success,
          error := none } 0).2) :=
  ⟨rfl, by decide,
    c4_duplicate_success_idempotent_state_not_dispatch
      ["j/research-result.json"]
      { jobs := [("j",
          { jobId := "j", status := JStatus.in_progress, completedTasks := [],
            startedAt := 0, completedAt := none, error := none })] }
      { job_id := "j", task_type := "research", status := EvStatus.success,
        error := none } 0 3 rfl (by decide)⟩

/-- C4 counterexample: two consecutive `research` successes for one job
leave `completed_stages = [research]` (idempotent state) but enqueue TWO
`product_manager` messages, not the "exactly one" the claim asserts. -/
theorem c4_duplicate_event_dispatches_twice :
    runEvents ["j/research-result.json"]
        { jobs := [("j",
            { jobId := "j", status := JStatus.in_progress, completedTasks := [],
              startedAt := 0, completedAt := none, error := none })] }
        [{ job_id := "j", task_type := "research", status := EvStatus.success,
           error := none },
         { job_id := "j", task_type := "research", status := EvStatus.success,
           error := none }] 0 =
      ({ jobs := [("j",
           { jobId := "j", status := JStatus.in_progress,
             completedTasks := ["research"], startedAt := 0,
             completedAt := none, error := none })] },
       [OutMsg.taskMsg "j" "product_manager",
        OutMsg.taskMsg "j" "product_manager"]) ∧
    [OutMsg.taskMsg "j" "product_manager",
        OutMsg.taskMsg "j" "product_manager"].length ≠ 1 :=
  ⟨by decide, by decide⟩

/-! ## C6 — completion events for unknown jobs -/

/-- C6 (amended): a completion event whose `job_id` is unknown leaves the
Job State Index unchanged (no record created, stats unchanged) and its
message is deleted — but, contrary to the claim, the consumer still
invokes the stage-completion handler for success events: a `coder`
success for an unknown job even publishes a `job_completed` announcement
(see `c6_unknown_job_still_dispatches`). -/
theorem c6_unknown_job_state_unchanged (storeKeys : List String)
    (m : JobStateManager) (e : CompletionEvent) (now : Int)
    (h : mapGet m.jobs e.job_id = none) :
    (eventConsumerHandler storeKeys m e now).1 = m ∧
    getStats (eventConsumerHandler storeKeys m e now).1 = getStats m ∧
    (consumeEventsStep storeKeys m (some e) now).2.2 = true ∧
    (e.status = EvStatus.success → e.task_type = "coder" →
      (eventConsumerHandler storeKeys m e now).2 =
        [OutMsg.jobCompleted e.job_id]) := by
  have h1 : (eventConsumerHandler storeKeys m e now).1 = m := by
    rw [eventConsumerHandler_fst, completeTask_unknown m e now h]
  refine ⟨h1, by rw [h1], rfl, ?_⟩
  intro hs htc
  have hd : handleTaskCompletion storeKeys e.job_id "coder" =
      Except.ok [OutMsg.jobCompleted e.job_id] := by
    simp [handleTaskCompletion]
  rw [eventConsumerHandler_success_dispatch storeKeys m e now m
    [OutMsg.jobCompleted e.job_id] hs (completeTask_unknown m e now h)
    (htc.symm ▸ hd)]

/-- Witness for `c6_unknown_job_state_unchanged`: a `coder` success for a
job id absent from an empty index. -/
theorem c6_unknown_job_state_unchanged_witness :
    mapGet ({ jobs := [] } : JobStateManager).jobs "ghost" = none ∧
    ((eventConsumerHandler [] { jobs := [] }
        { job_id := "ghost", task_type := "coder", status := EvStatus.success,
          error := none } 0).1 = { jobs := [] } ∧
    getStats (eventConsumerHandler [] { jobs := [] }
        { job_id := "ghost", task_type := "coder", status := EvStatus.success,
          error := none } 0).1 = getStats { jobs := [] } ∧
    (consumeEventsStep [] { jobs := [] }
        (some { job_id := "ghost", task_type := "coder",
                status := EvStatus.success, error := none }) 0).2.2 = true ∧
    (EvStatus.success = EvStatus.success → "coder" = "coder" →
      (eventConsumerHandler [] { jobs := [] }
          { job_id := "ghost", task_type := "coder",
            status := EvStatus.success, error := none } 0).2 =
        [OutMsg.jobCompleted "ghost"])) :=
  ⟨by decide,
    c6_unknown_job_state_unchanged [] { jobs := [] }
      { job_id := "ghost", task_type := "coder", status := EvStatus.success,
        error := none } 0 (by decide)⟩

/-- C6 counterexample: a `coder` success for an unknown job is not merely
logged and discarded — the consumer runs the stage-completion handler and
publishes a `job_completed` message for the unknown job. -/
theorem c6_unknown_job_still_dispatches :
    (eventConsumerHandler [] { jobs := [] }
        { job_id := "ghost", task_type := "coder", status := EvStatus.success,
          error := none } 0).2 = [OutMsg.jobCompleted "ghost"] ∧
    [OutMsg.jobCompleted "ghost"] ≠ ([] : List OutMsg) :=
  ⟨by decide, by decide⟩

/-! ## C7 — poison messages and deletion on handler exceptions -/

/-- C7 (amended): the events consumer does the OPPOSITE of the claim on
both counts.  A message that fails to parse is logged but NOT deleted
(the parse exception is caught before the delete call, so the poison
message is redelivered forever), while every parseable message IS
deleted, even when the stage-completion processing raises — the
application-level handler catches all exceptions, so `consumeEvents`
never sees a failure and always reaches the delete. -/
theorem c7_delete_on_parse_only (storeKeys : List String)
    (m : JobStateManager) (e : CompletionEvent) (now : Int) :
    (consumeEventsStep storeKeys m (some e) now).2.2 = true ∧
    (consumeEventsStep storeKeys m none now).2.2 = false :=
  ⟨rfl, rfl⟩

/-- C7 counterexample: a poison (unparseable) message is not deleted; and
a `research` success whose dispatch raises (missing upstream artifact,
`handleTaskCompletion` returns an error) has its message deleted anyway. -/
theorem c7_counterexample :
    (consumeEventsStep [] { jobs := [] } none 0).2.2 = false ∧
    handleTaskCompletion [] "j" "research" = Except.error "NotFound" ∧
    (consumeEventsStep [] { jobs := [("j",
        { jobId := "j", status := JStatus.in_progress, completedTasks := [],
          startedAt := 0, completedAt := none, error := none })] }
      (some { job_id := "j", task_type := "research",
              status := EvStatus.success, error := none }) 0).2.2 = true :=
  ⟨by decide, by rfl, by decide⟩

/-! ## C3 — the job_completed announcement -/

/-- C3: an admitted job that receives success events for all five stages
in canonical order ends with `status = completed`, but the events queue
receives ZERO `job_completed` messages, not the exactly one the spec
requires.  `completeTask` returns `true` on the `coder` event, so the
consumer takes the `isJobComplete` branch and never calls
`handleTaskCompletion` — `completeJob`/`publishDone`, whose whole purpose
is this announcement, is unreachable on the normal completion path. -/
theorem c3_full_run_publishes_no_job_completed :
    (getJob (runEvents
        ["J/research-result.json", "J/product-manager-result.json",
         "J/drawer-result.json", "J/designer-result.json"]
        (postJob { jobs := [] }
          { product := some "Acme Widget", audience := some "Developers",
            tone := some "technical", job_id := some "J" } "gen" 0).1
        [{ job_id := "J", task_type := "research", status := EvStatus.success,
           error := none },
         { job_id := "J", task_type := "product_manager",
           status := EvStatus.success, error := none },
         { job_id := "J", task_type := "drawer", status := EvStatus.success,
           error := none },
         { job_id := "J", task_type := "designer", status := EvStatus.success,
           error := none },
         { job_id := "J", task_type := "coder", status := EvStatus.success,
           error := none }] 0).1 "J").map JobStatus.status =
      some JStatus.completed ∧
    (runEvents
        ["J/research-result.json", "J/product-manager-result.json",
         "J/drawer-result.json", "J/designer-result.json"]
        (postJob { jobs := [] }
          { product := some "Acme Widget", audience := some "Developers",
            tone := some "technical", job_id := some "J" } "gen" 0).1
        [{ job_id := "J", task_type := "research", status := EvStatus.success,
           error := none },
         { job_id := "J", task_type := "product_manager",
           status := EvStatus.success, error := none },
         { job_id := "J", task_type := "drawer", status := EvStatus.success,
           error := none },
         { job_id := "J", task_type := "designer", status := EvStatus.success,
           error := none },
         { job_id := "J", task_type := "coder", status := EvStatus.success,
           error := none }] 0).2 =
      [OutMsg.taskMsg "J" "product_manager", OutMsg.taskMsg "J" "drawer",
       OutMsg.taskMsg "J" "designer", OutMsg.taskMsg "J" "coder"] ∧
    OutMsg.jobCompleted "J" ∉ (runEvents
        ["J/research-result.json", "J/product-manager-result.json",
         "J/drawer-result.json", "J/designer-result.json"]
        (postJob { jobs := [] }
          { product := some "Acme Widget", audience := some "Developers",
            tone := some "technical", job_id := some "J" } "gen" 0).1
        [{ job_id := "J", task_type := "research", status := EvStatus.success,
           error := none },
         { job_id := "J", task_type := "product_manager",
           status := EvStatus.success, error := none },
         { job_id := "J", task_type := "drawer", status := EvStatus.success,
           error := none },
         { job_id := "J", task_type := "designer", status := EvStatus.success,
           error := none },
         { job_id := "J", task_type := "coder", status := EvStatus.success,
           error := none }] 0).2 :=
  ⟨by decide, by decide, by decide⟩

/-! ## C5 — duplicate admission -/

/-- C5 (amended): `createJob` never fails with a Duplicate error — it
unconditionally `Map.set`s, overwriting any existing record.  A second
admission with the same `job_id` therefore also answers 201 and RESETS
the record to a fresh `in_progress` job with empty `completedTasks`,
instead of rejecting and preserving the first record. -/
theorem c5_duplicate_admission_resets (m : JobStateManager)
    (req : JobSpecReq) (genId : String) (now : Int) (jid : String)
    (hp : truthyStr req.product = true) (ha : truthyStr req.audience = true)
    (hj : req.job_id = some jid) (hne : (jid == "") = false) :
    (postJob m req genId now).2 = 201 ∧
    mapGet (postJob m req genId now).1.jobs jid =
      some { jobId := jid, status := JStatus.in_progress, completedTasks := [],
             startedAt := now, completedAt := none, error := none } := by
  have hjobs : postJob m req genId now =
      ({ jobs := mapSet (mapSet m.jobs jid
          { jobId := jid, status := JStatus.queued, completedTasks := [],
            startedAt := now, completedAt := none, error := none }) jid
          { jobId := jid, status := JStatus.in_progress, completedTasks := [],
            startedAt := now, completedAt := none, error := none } }, 201) := by
    unfold postJob
    simp only [hp, ha, Bool.and_self, Bool.not_true, Bool.false_eq_true,
      if_false, hj, hne]
    unfold createJob startJob
    rw [mapGet_set_self]
  rw [hjobs]
  exact ⟨rfl, mapGet_set_self _ _ _⟩

/-- Witness for `c5_duplicate_admission_resets`: re-admitting a job id
whose record already has a completed stage resets it. -/
theorem c5_duplicate_admission_resets_witness :
    truthyStr (some "Acme") = true ∧
    truthyStr (some "Devs") = true ∧
    (some "J" : Option String) = some "J" ∧
    ("J" == "") = false ∧
    ((postJob
        { jobs := [("J",
            { jobId := "J", status := JStatus.in_progress,
              completedTasks := ["research"], startedAt := 0,
              completedAt := none, error := none })] }
        { product := some "Acme", audience := some "Devs", tone := none,
          job_id := some "J" } "gen" 9).2 = 201 ∧
    mapGet (postJob
        { jobs := [("J",
            { jobId := "J", status := JStatus.in_progress,
              completedTasks := ["research"], startedAt := 0,
              completedAt := none, error := none })] }
        { product := some "Acme", audience := some "Devs", tone := none,
          job_id := some "J" } "gen" 9).1.jobs "J" =
      some { jobId := "J", status := JStatus.in_progress, completedTasks := [],
             startedAt := 9, completedAt := none, error := none }) :=
  ⟨by decide, by decide, rfl, by decide,
    c5_duplicate_admission_resets
      { jobs := [("J",
          { jobId := "J", status := JStatus.in_progress,
            completedTasks := ["research"], startedAt := 0,
            completedAt := none, error := none })] }
      { product := some "Acme", audience := some "Devs", tone := none,
        job_id := some "J" } "gen" 9 "J"
      (by decide) (by decide) rfl (by decide)⟩

/-- C5 counterexample: admit `"J"`, record a `research` completion, then
POST the same `job_id` again — the second admission returns 201 (not a
Duplicate rejection) and the existing record's completed stages ARE
reset. -/
theorem c5_second_admission_not_rejected :
    (postJob { jobs := [] }
        { product := some "Acme", audience := some "Devs", tone := none,
          job_id := some "J" } "g1" 0).2 = 201 ∧
    (getJob (eventConsumerHandler []
        (postJob { jobs := [] }
          { product := some "Acme", audience := some "Devs", tone := none,
            job_id := some "J" } "g1" 0).1
        { job_id := "J", task_type := "research", status := EvStatus.success,
          error := none } 1).1 "J").map JobStatus.completedTasks =
      some ["research"] ∧
    (postJob (eventConsumerHandler []
        (postJob { jobs := [] }
          { product := some "Acme", audience := some "Devs", tone := none,
            job_id := some "J" } "g1" 0).1
        { job_id := "J", task_type := "research", status := EvStatus.success,
          error := none } 1).1
      { product := some "Acme", audience := some "Devs", tone := none,
        job_id := some "J" } "g2" 2).2 = 201 ∧
    (getJob (postJob (eventConsumerHandler []
        (postJob { jobs := [] }
          { product := some "Acme", audience := some "Devs", tone := none,
            job_id := some "J" } "g1" 0).1
        { job_id := "J", task_type := "research", status := EvStatus.success,
          error := none } 1).1
      { product := some "Acme", audience := some "Devs", tone := none,
        job_id := some "J" } "g2" 2).1 "J").map JobStatus.completedTasks =
      some [] :=
  ⟨by decide, by decide, by decide, by decide⟩

/-! ## C8 — the reaper -/

theorem checkRateLimit_first_request (store : List (String × Int))
    (ip : String) (now : Int) (h : mapGet store ip = none) :
    checkRateLimit store ip now = (true, mapSet store ip now) := by
  unfold checkRateLimit
  rw [h]

theorem checkRateLimit_denied (store : List (String × Int)) (ip : String)
    (now last : Int) (h : mapGet store ip = some last)
    (hwin : now - last < RATE_LIMIT_WINDOW) :
    checkRateLimit store ip now = (false, store) := by
  unfold checkRateLimit
  rw [h]
  show (if now - last ≥ RATE_LIMIT_WINDOW then (true, mapSet store ip now)
    else (false, store)) = (false, store)
  rw [if_neg (by omega : ¬ now - last ≥ RATE_LIMIT_WINDOW)]

/-- C8 (amended): the reaper evicts exactly the terminal jobs
(`completed` or `failed`) whose STARTED-at timestamp is more than
`max_age` in the past — the age is computed from `started_at`, not from
`completed_at` as the claim states (see
`c8_reaps_freshly_completed_job`); a `queued` or `in_progress` job is
indeed never evicted, whatever its age. -/
theorem c8_reaper_evicts_by_startedAt (m : JobStateManager)
    (now maxAge : Int) (jobId : String) (j : JobStatus)
    (hnd : (m.jobs.map Prod.fst).Nodup)
    (hj : mapGet m.jobs jobId = some j) :
    mapGet (cleanup m now maxAge).jobs jobId =
      if now - j.startedAt > maxAge ∧
          (j.status = JStatus.completed ∨ j.status = JStatus.failed)
      then none else some j := by
  unfold cleanup
  rw [mapGet_foldl_delete]
  have hmem : jobId ∈
      ((m.jobs.filter fun p => shouldReap now maxAge p.2).map Prod.fst) ↔
      (now - j.startedAt > maxAge ∧
        (j.status = JStatus.completed ∨ j.status = JStatus.failed)) := by
    constructor
    · intro hin
      obtain ⟨⟨k, v⟩, hpf, hk⟩ := List.mem_map.mp hin
      obtain ⟨hpm, hrp⟩ := List.mem_filter.mp hpf
      simp only at hk
      subst hk
      have hv := (mapGet_of_mem_nodup m.jobs k v hnd hpm).symm.trans hj
      injection hv with hv
      subst hv
      simpa [shouldReap] using hrp
    · rintro ⟨h1, h2⟩
      refine List.mem_map.mpr ⟨(jobId, j),
        List.mem_filter.mpr ⟨mem_of_mapGet _ _ _ hj, ?_⟩, rfl⟩
      rcases h2 with h2 | h2 <;> simp [shouldReap, h1, h2]
  by_cases hc : now - j.startedAt > maxAge ∧
      (j.status = JStatus.completed ∨ j.status = JStatus.failed)
  · simp [hc, hmem.mpr hc]
  · have hnin : jobId ∉
        ((m.jobs.filter fun p => shouldReap now maxAge p.2).map Prod.fst) :=
      fun hin => hc (hmem.mp hin)
    simp [hc, hnin, hj]

/-- Witness for `c8_reaper_evicts_by_startedAt`: a still `in_progress`
job that is 25 hours old is not evicted (boundary B4 of the spec). -/
theorem c8_reaper_evicts_by_startedAt_witness :
    (([("j",
        { jobId := "j", status := JStatus.in_progress, completedTasks := [],
          startedAt := 0, completedAt := none, error := none })] :
        List (String × JobStatus)).map Prod.fst).Nodup ∧
    mapGet ([("j",
        { jobId := "j", status := JStatus.in_progress, completedTasks := [],
          startedAt := 0, completedAt := none, error := none })] :
        List (String × JobStatus)) "j" =
      some { jobId := "j", status := JStatus.in_progress, completedTasks := [],
             startedAt := 0, completedAt := none, error := none } ∧
    mapGet (cleanup
        { jobs := [("j",
            { jobId := "j", status := JStatus.in_progress, completedTasks := [],
              startedAt := 0, completedAt := none, error := none })] }
        90000000 DEFAULT_CLEANUP_MAX_AGE).jobs "j" =
      if (90000000 : Int) -
          ({ jobId := "j", status := JStatus.in_progress, completedTasks := [],
             startedAt := 0, completedAt := none,
             error := none } : JobStatus).startedAt > DEFAULT_CLEANUP_MAX_AGE ∧
          (({ jobId := "j", status := JStatus.in_progress, completedTasks := [],
              startedAt := 0, completedAt := none,
              error := none } : JobStatus).status = JStatus.completed ∨
            ({ jobId := "j", status := JStatus.in_progress,
               completedTasks := [], startedAt := 0, completedAt := none,
               error := none } : JobStatus).status = JStatus.failed)
      then none
      else some { jobId := "j", status := JStatus.in_progress,
                  completedTasks := [], startedAt := 0, completedAt := none,
                  error := none } :=
  ⟨by decide, by decide,
    c8_reaper_evicts_by_startedAt
      { jobs := [("j",
          { jobId := "j", status := JStatus.in_progress, completedTasks := [],
            startedAt := 0, completedAt := none, error := none })] }
      90000000 DEFAULT_CLEANUP_MAX_AGE "j"
      { jobId := "j", status := JStatus.in_progress, completedTasks := [],
        startedAt := 0, completedAt := none, error := none }
      (by decide) (by decide)⟩

/-- C8 counterexample: a job that completed JUST NOW (`completed_at =
now`, so not older than the 24h default max age) but was started 25 hours
ago IS evicted — the reaper keys on `started_at`, not `completed_at`. -/
theorem c8_reaps_freshly_completed_job :
    getJob (cleanup
        { jobs := [("j",
            { jobId := "j", status := JStatus.completed,
              completedTasks := ["research", "product_manager", "drawer",
                "designer", "coder"],
              startedAt := 0, completedAt := some 90000000,
              error := none })] }
        90000000 DEFAULT_CLEANUP_MAX_AGE) "j" = none ∧
    ((90000000 : Int) - 90000000 ≤ DEFAULT_CLEANUP_MAX_AGE) :=
  ⟨by decide, by decide⟩

/-! ## C9 — per-IP rate limiting of the job-submission endpoint -/

/-- C9: confirmed against the web front-end `POST /api/jobs` route (the
component of this repository that implements the submission rate limit;
the task-router's internal route has none).  If an IP has no recorded
request, the first POST records it, and a second POST from the same IP
strictly within the 60-second window is answered 429 with header
`Retry-After: 60`, performs no S3 write and no task-router call (so the
Job State Index is untouched), and leaves the rate-limit store unchanged
— hence at most one POST per IP succeeds per sliding window. -/
theorem c9_second_post_within_window_429 (store : List (String × Int))
    (ip : String) (now later : Int) (body1 body2 : Option JobSpecReq)
    (genId1 genId2 : String)
    (h0 : mapGet store ip = none)
    (hwin : later - now < RATE_LIMIT_WINDOW) :
    webPostJobs (webPostJobs store ip now body1 genId1).1 ip later body2
        genId2 =
      ((webPostJobs store ip now body1 genId1).1,
       { status := 429, retryAfterHeader := some "60" }, []) := by
  have hstore1 : (webPostJobs store ip now body1 genId1).1 =
      mapSet store ip now := by
    unfold webPostJobs
    rw [checkRateLimit_first_request store ip now h0]
    cases body1 with
    | none => rfl
    | some spec =>
        simp only []
        split <;> rfl
  rw [hstore1]
  unfold webPostJobs
  rw [checkRateLimit_denied (mapSet store ip now) ip later now
    (mapGet_set_self _ _ _) hwin]

/-- Witness for `c9_second_post_within_window_429`: two valid POSTs from
`10.0.0.1` thirty seconds apart; the second gets 429 / Retry-After 60. -/
theorem c9_second_post_within_window_429_witness :
    mapGet ([] : List (String × Int)) "10.0.0.1" = none ∧
    ((30000 : Int) - 0 < RATE_LIMIT_WINDOW) ∧
    webPostJobs (webPostJobs [] "10.0.0.1" 0
        (some { product := some "Acme", audience := some "Devs", tone := none,
                job_id := none }) "g1").1 "10.0.0.1" 30000
        (some { product := some "Acme", audience := some "Devs", tone := none,
                job_id := none }) "g2" =
      ((webPostJobs [] "10.0.0.1" 0
          (some { product := some "Acme", audience := some "Devs",
                  tone := none, job_id := none }) "g1").1,
       { status := 429, retryAfterHeader := some "60" }, []) :=
  ⟨by decide, by decide,
    c9_second_post_within_window_429 [] "10.0.0.1" 0 30000
      (some { product := some "Acme", audience := some "Devs", tone := none,
              job_id := none })
      (some { product := some "Acme", audience := some "Devs", tone := none,
              job_id := none }) "g1" "g2" (by decide) (by decide)⟩

/-! ## C10 — the progress projection of the tasks endpoint -/

/-- C10 (amended): every job listed by the tasks endpoint reports
`progress = round(100 * |completed_stages| / 3)` — the source divides by
`totalTasks = 3` (a leftover of an earlier three-stage pipeline), not by
5.  One completed stage reports 33 (not 20) and all five stages report
167 (not 100). -/
theorem c10_progress_divides_by_three (m : JobStateManager) (v : TaskView)
    (hv : v ∈ tasksEndpoint m) :
    ∃ p, p ∈ m.jobs ∧ v.job_id = p.2.jobId ∧
      v.progress = mathRoundDiv (p.2.completedTasks.length * 100) 3 ∧
      (p.2.completedTasks.length = 5 → v.progress = 167) ∧
      (p.2.completedTasks.length = 1 → v.progress = 33) := by
  obtain ⟨p, hp, hmap⟩ := List.mem_map.mp hv
  subst hmap
  refine ⟨p, hp, rfl, rfl, ?_, ?_⟩
  · intro h5
    show calculateJobProgress p.2 = 167
    simp only [calculateJobProgress, h5]
    decide
  · intro h1
    show calculateJobProgress p.2 = 33
    simp only [calculateJobProgress, h1]
    decide

/-- Witness for `c10_progress_divides_by_three`: a job with all five
stages completed is listed with progress 167. -/
theorem c10_progress_divides_by_three_witness :
    ({ task_id := "j", job_id := "j", status := JStatus.completed,
       created_at := 0, progress := 167 } : TaskView) ∈
      tasksEndpoint { jobs := [("j",
        { jobId := "j", status := JStatus.completed,
          completedTasks := ["research", "product_manager", "drawer",
            "designer", "coder"],
          startedAt := 0, completedAt := some 1, error := none })] } ∧
    ∃ p, p ∈ ({ jobs := [("j",
        { jobId := "j", status := JStatus.completed,
          completedTasks := ["research", "product_manager", "drawer",
            "designer", "coder"],
          startedAt := 0, completedAt := some 1, error := none })] } :
        JobStateManager).jobs ∧
      ({ task_id := "j", job_id := "j", status := JStatus.completed,
         created_at := 0, progress := 167 } : TaskView).job_id = p.2.jobId ∧
      ({ task_id := "j", job_id := "j", status := JStatus.completed,
         created_at := 0, progress := 167 } : TaskView).progress =
        mathRoundDiv (p.2.completedTasks.length * 100) 3 ∧
      (p.2.completedTasks.length = 5 →
        ({ task_id := "j", job_id := "j", status := JStatus.completed,
           created_at := 0, progress := 167 } : TaskView).progress = 167) ∧
      (p.2.completedTasks.length = 1 →
        ({ task_id := "j", job_id := "j", status := JStatus.completed,
           created_at := 0, progress := 167 } : TaskView).progress = 33) :=
  ⟨by decide,
    c10_progress_divides_by_three
      { jobs := [("j",
          { jobId := "j", status := JStatus.completed,
            completedTasks := ["research", "product_manager", "drawer",
              "designer", "coder"],
            startedAt := 0, completedAt := some 1, error := none })] }
      { task_id := "j", job_id := "j", status := JStatus.completed,
        created_at := 0, progress := 167 } (by decide)⟩

/-- C10 counterexample: a job with exactly one completed stage is listed
with progress 33, while `round(100 * 1 / 5)` — the formula the claim
states — is 20. -/
theorem c10_one_stage_reports_33 :
    tasksEndpoint { jobs := [("j",
        { jobId := "j", status := JStatus.in_progress,
          completedTasks := ["research"], startedAt := 0, completedAt := none,
          error := none })] } =
      [{ task_id := "j", job_id := "j", status := JStatus.in_progress,
         created_at := 0, progress := 33 }] ∧
    mathRoundDiv (100 * 1) 5 = 20 ∧ (33 : Nat) ≠ 20 :=
  ⟨by decide, by decide, by decide⟩

end TaskRouter
